import Mathlib

/-!
Shallow embedding of the pamiq-recorder audio recording component
(src/pamiq_recorder/audio.py and src/pamiq_recorder/base.py) together
with theorems checking the specification claims about it.

Conventions of the embedding:
* Python strings are Lean strings; lower() is a character-wise map of
  Char.toLower and lstrip(".") is dropWhile on leading dot characters.
* A numpy buffer is represented by its shape (a list of dimension
  sizes); sample values are irrelevant to every property here because
  the code never inspects them.
* A raised exception becomes an explicit error value; the recorder
  object is returned unchanged alongside it, matching the fact that a
  Python raise before any mutation leaves the object untouched.
* The soundfile handle is a record of its open parameters, the number
  of frames written so far, and a closed flag.
-/

/-- Container formats supported for writing (the SupportFormat type alias). -/
inductive SupportFormat where
  | WAV | FLAC | OGG | CAF | MP3
deriving DecidableEq, Repr

/-- Codec subtypes supported for writing (the SupportSubtype type alias). -/
inductive SupportSubtype where
  | FLOAT | PCM_16 | OPUS | VORBIS | ALAC_16 | MPEG_LAYER_III
deriving DecidableEq, Repr

/-- Normalization performed at audio.py line 63:
ext = extension.lower().lstrip(".") — lowercase, then remove every
leading dot character. -/
def normalizeExt (extension : String) : String :=
  String.mk ((extension.data.map Char.toLower).dropWhile (fun c => c == '.'))

/-- The extension dispatch of AudioRecorder._get_format_and_subtype_from_extension
(audio.py lines 59-83): normalize, then match against the fixed table;
the default branch raises ValueError carrying the normalized extension
(the varying part of the message string), modelled as an error value. -/
def getFormatAndSubtype (extension : String) :
    Except String (SupportFormat × SupportSubtype) :=
  let ext := normalizeExt extension
  match ext with
  | "wav" => .ok (.WAV, .PCM_16)
  | "flac" => .ok (.FLAC, .PCM_16)
  | "ogg" => .ok (.OGG, .VORBIS)
  | "opus" => .ok (.OGG, .OPUS)
  | "m4a" | "mov" | "alac" => .ok (.CAF, .ALAC_16)
  | "mp3" => .ok (.MP3, .MPEG_LAYER_III)
  | _ => .error ext

/-- The bare lookup table of the match statement (audio.py lines 67-83),
applied to an already normalized extension string.  Used to state that
getFormatAndSubtype consults only the normalized string. -/
def lookupNormalized (ext : String) :
    Except String (SupportFormat × SupportSubtype) :=
  match ext with
  | "wav" => .ok (.WAV, .PCM_16)
  | "flac" => .ok (.FLAC, .PCM_16)
  | "ogg" => .ok (.OGG, .VORBIS)
  | "opus" => .ok (.OGG, .OPUS)
  | "m4a" | "mov" | "alac" => .ok (.CAF, .ALAC_16)
  | "mp3" => .ok (.MP3, .MPEG_LAYER_III)
  | _ => .error ext

/-- The normalized extension strings present in the FormatMapping table. -/
def supportedExts : List String :=
  ["wav", "flac", "ogg", "opus", "m4a", "mov", "alac", "mp3"]

/-- State of an open soundfile.SoundFile handle: the parameters it was
opened with, the number of frames written so far, and whether close()
has been called on it. -/
structure SoundFile where
  samplerate : Nat
  sfChannels : Nat
  format : SupportFormat
  subtype : SupportSubtype
  frames : Nat
  closed : Bool
deriving DecidableEq, Repr

/-- An AudioRecorder object.  Its Python attributes are file_path,
sample_rate, channels and _writer; file_path is pure glue and omitted.
writer = none models an object on which the _writer attribute was never
assigned (construction raised before audio.py line 50), which the code
tests with hasattr. -/
structure AudioRecorder where
  sampleRate : Nat
  channels : Nat
  writer : Option SoundFile
deriving DecidableEq, Repr

/-- AudioRecorder construction (audio.py lines 26-57) restricted to the
extension already extracted from the path: resolve the extension, and
on success open a fresh handle with the given parameters; on failure
propagate the ValueError, constructing no writer. -/
def AudioRecorder.new (extension : String) (sampleRate channels : Nat) :
    Except String AudioRecorder :=
  match getFormatAndSubtype extension with
  | .error e => .error e
  | .ok (fmt, sub) =>
      .ok { sampleRate := sampleRate
            channels := channels
            writer := some { samplerate := sampleRate, sfChannels := channels
                             format := fmt, subtype := sub
                             frames := 0, closed := false } }

/-- How a channel mismatch message reports the offending data: mono
(flat) data, or the second dimension of a 2-D buffer. -/
inductive ChannelGot where
  | mono
  | dims (n : Nat)
deriving DecidableEq, Repr

/-- Errors raised by AudioRecorder.write: RuntimeError when closed, and
the two ValueError shapes of audio.py lines 104-117. -/
inductive WriteError where
  | closedResource
  | invalidShape (rank : Nat)
  | channelMismatch (expected : Nat) (got : ChannelGot)
deriving DecidableEq, Repr

/-- Result of a write call: the raised error if any, the recorder state
afterwards, and whether the underlying encoder write (audio.py line
120) was reached. -/
structure WriteResult where
  err : Option WriteError
  recorder : AudioRecorder
  encoderCalled : Bool
deriving DecidableEq, Repr

/-- AudioRecorder.write (audio.py lines 85-120) on a buffer given by its
shape.  The checks run in source order: closed-resource precondition,
rank must be 1 or 2, then the channel check for the matching rank; only
then is the encoder write reached, appending shape[0] frames (a flat
buffer of length n holds n mono frames). -/
def AudioRecorder.write (r : AudioRecorder) (shape : List Nat) : WriteResult :=
  match r.writer with
  | none => ⟨some .closedResource, r, false⟩
  | some w =>
      if w.closed then ⟨some .closedResource, r, false⟩
      else
        match shape with
        | [n] =>
            if r.channels ≠ 1 then
              ⟨some (.channelMismatch r.channels .mono), r, false⟩
            else
              ⟨none, { r with writer := some { w with frames := w.frames + n } }, true⟩
        | [n, c] =>
            if c ≠ r.channels then
              ⟨some (.channelMismatch r.channels (.dims c)), r, false⟩
            else
              ⟨none, { r with writer := some { w with frames := w.frames + n } }, true⟩
        | other => ⟨some (.invalidShape other.length), r, false⟩

/-- AudioRecorder.close (audio.py lines 122-126) instrumented with a
flag recording whether the underlying handle close (audio.py line 126)
was invoked: it is skipped when the _writer attribute is absent or the
handle is already closed. -/
def AudioRecorder.closeStep (r : AudioRecorder) : AudioRecorder × Bool :=
  match r.writer with
  | none => (r, false)
  | some w =>
      if w.closed then (r, false)
      else ({ r with writer := some { w with closed := true } }, true)

/-- AudioRecorder.close as a plain state transformer. -/
def AudioRecorder.close (r : AudioRecorder) : AudioRecorder :=
  r.closeStep.1

/-- A recorder is usable exactly when a handle exists and is not yet
closed — the negation of the guard at audio.py line 97. -/
def AudioRecorder.isOpen (r : AudioRecorder) : Bool :=
  match r.writer with
  | none => false
  | some w => !w.closed

/-- Number of frames persisted in the backing file. -/
def AudioRecorder.fileFrames (r : AudioRecorder) : Nat :=
  match r.writer with
  | none => 0
  | some w => w.frames

/-- The underlying resource is released: either no handle was ever
opened, or the handle has been closed. -/
def AudioRecorder.writerReleased (r : AudioRecorder) : Bool :=
  match r.writer with
  | none => true
  | some w => w.closed

/-- An AudioRecorder object left behind by a construction attempt that
raised before audio.py line 50 assigned the _writer attribute: the
sample_rate and channels attributes exist, the handle does not. -/
def AudioRecorder.afterFailedInit (sampleRate channels : Nat) : AudioRecorder :=
  { sampleRate := sampleRate, channels := channels, writer := none }

/-- A recorder together with a count of how many times the close method
has been invoked on it.  The counter is instrumentation of the model:
it lets the exactly-once claims about the lifecycle hooks be stated. -/
structure TracedRecorder where
  state : AudioRecorder
  closeCalls : Nat
deriving DecidableEq, Repr

/-- One invocation of the close method on an instrumented recorder. -/
def TracedRecorder.close (s : TracedRecorder) : TracedRecorder :=
  { state := s.state.close, closeCalls := s.closeCalls + 1 }

/-- Recorder.__enter__ (base.py lines 45-51): returns the recorder
instance itself. -/
def Recorder.enter (r : AudioRecorder) : AudioRecorder := r

/-- Recorder.__exit__ (base.py lines 53-62): calls self.close() once,
ignoring the exception arguments, and returns None so a pending
exception keeps propagating. -/
def Recorder.exitScope (s : TracedRecorder) : TracedRecorder := s.close

/-- Recorder.__del__ (base.py lines 41-43): the destructor calls
self.close() once. -/
def Recorder.finalize (s : TracedRecorder) : TracedRecorder := s.close

/-- Semantics of the Python statement with r as x: body.  The body is an
arbitrary computation receiving the value returned by __enter__ and
producing either a value or a raised exception, together with the
recorder state it leaves behind.  On both exits __exit__ runs, and
since it returns None the body result — value or exception — passes
through unchanged. -/
def pythonWith {α : Type} (s : TracedRecorder)
    (body : AudioRecorder → Except String α × AudioRecorder) :
    Except String α × TracedRecorder :=
  let x := Recorder.enter s.state
  let (res, r1) := body x
  let s1 := Recorder.exitScope { state := r1, closeCalls := s.closeCalls }
  (res, s1)

-- Sanity checks of the embedding on concrete inputs.
example : normalizeExt ".WAV" = "wav" := by decide
example : getFormatAndSubtype ".opus" = .ok (.OGG, .OPUS) := rfl
example : getFormatAndSubtype ".xyz" = .error "xyz" := rfl
example : normalizeExt "..wav" = "wav" := by decide

/-- A concrete open stereo recorder, used to instantiate theorems that
carry hypotheses. -/
def sampleStereo : AudioRecorder :=
  { sampleRate := 44100, channels := 2
    writer := some { samplerate := 44100, sfChannels := 2
                     format := .WAV, subtype := .PCM_16
                     frames := 0, closed := false } }

/-- Claim C2: every extension of the FormatMapping table resolves to its
documented (format, subtype) pair, both without and with a leading
separator, and the result depends only on the lowercased form of the
input, hence is case-insensitive. -/
theorem resolve_table_correct :
    (getFormatAndSubtype "wav" = .ok (.WAV, .PCM_16)
      ∧ getFormatAndSubtype ".wav" = .ok (.WAV, .PCM_16)
      ∧ getFormatAndSubtype "flac" = .ok (.FLAC, .PCM_16)
      ∧ getFormatAndSubtype ".flac" = .ok (.FLAC, .PCM_16)
      ∧ getFormatAndSubtype "ogg" = .ok (.OGG, .VORBIS)
      ∧ getFormatAndSubtype ".ogg" = .ok (.OGG, .VORBIS)
      ∧ getFormatAndSubtype "opus" = .ok (.OGG, .OPUS)
      ∧ getFormatAndSubtype ".opus" = .ok (.OGG, .OPUS)
      ∧ getFormatAndSubtype "m4a" = .ok (.CAF, .ALAC_16)
      ∧ getFormatAndSubtype ".m4a" = .ok (.CAF, .ALAC_16)
      ∧ getFormatAndSubtype "mov" = .ok (.CAF, .ALAC_16)
      ∧ getFormatAndSubtype ".mov" = .ok (.CAF, .ALAC_16)
      ∧ getFormatAndSubtype "alac" = .ok (.CAF, .ALAC_16)
      ∧ getFormatAndSubtype ".alac" = .ok (.CAF, .ALAC_16)
      ∧ getFormatAndSubtype "mp3" = .ok (.MP3, .MPEG_LAYER_III)
      ∧ getFormatAndSubtype ".mp3" = .ok (.MP3, .MPEG_LAYER_III))
  ∧ (∀ s t : String, s.data.map Char.toLower = t.data.map Char.toLower →
      getFormatAndSubtype s = getFormatAndSubtype t) := by
  constructor
  · exact ⟨rfl, rfl, rfl, rfl, rfl, rfl, rfl, rfl, rfl, rfl, rfl, rfl, rfl, rfl, rfl, rfl⟩
  · intro s t h
    unfold getFormatAndSubtype normalizeExt
    rw [h]

/-- Witness for resolve_table_correct: the case-insensitivity clause at
a concrete pair of inputs. -/
theorem resolve_table_correct_witness :
    getFormatAndSubtype "WaV" = getFormatAndSubtype ".wav" ∨
      getFormatAndSubtype "WaV" = getFormatAndSubtype "wav" :=
  Or.inr (resolve_table_correct.2 "WaV" "wav" (by decide))

/-- Counterexample to claim C6: on input extension .XYZ the ValueError
payload is the normalized string xyz, not the original pre-normalization
text .XYZ, nor its merely dot-trimmed form XYZ — lowercasing has already
been applied. -/
theorem resolve_error_payload_counterexample :
    getFormatAndSubtype ".XYZ" = .error "xyz"
      ∧ "xyz" ≠ ".XYZ" ∧ "xyz" ≠ "XYZ" :=
  ⟨rfl, by decide, by decide⟩

/-- Claim C6 as amended: an extension outside the FormatMapping table
fails with an error carrying the NORMALIZED (lowercased, separator
stripped) extension text, the failure surfaces from the constructor,
and no writer object is produced by that attempt. -/
theorem resolve_unsupported_amended (ext : String)
    (h : normalizeExt ext ∉ supportedExts) :
    getFormatAndSubtype ext = .error (normalizeExt ext)
      ∧ ∀ sr ch : Nat, AudioRecorder.new ext sr ch = .error (normalizeExt ext) := by
  have hres : getFormatAndSubtype ext = .error (normalizeExt ext) := by
    unfold getFormatAndSubtype
    dsimp only
    split
    all_goals first
      | rfl
      | (next heq => exact absurd (by simp [supportedExts, heq]) h)
  refine ⟨hres, fun sr ch => ?_⟩
  unfold AudioRecorder.new
  rw [hres]

/-- Witness for resolve_unsupported_amended at the concrete unsupported
extension .XYZ. -/
theorem resolve_unsupported_amended_witness :
    getFormatAndSubtype ".XYZ" = .error (normalizeExt ".XYZ")
      ∧ AudioRecorder.new ".XYZ" 44100 2 = .error (normalizeExt ".XYZ") :=
  ⟨(resolve_unsupported_amended ".XYZ" (by decide)).1,
   (resolve_unsupported_amended ".XYZ" (by decide)).2 44100 2⟩

/-- Counterexample to claim C7: normalization removes EVERY leading
separator character, not exactly one — the input ..wav loses both dots
and still resolves, where the claim predicts a surviving separator and
a lookup miss. -/
theorem normalize_single_strip_counterexample :
    normalizeExt "..wav" = "wav"
      ∧ normalizeExt "..wav" ≠ ".wav"
      ∧ getFormatAndSubtype "..wav" = .ok (.WAV, .PCM_16) :=
  ⟨by decide, by decide, rfl⟩

/-- Claim C7 as amended: resolution lowercases the extension, strips ALL
leading separator characters, and consults the lookup table only on
that normalized string; prepending a separator never changes the
normalized form. -/
theorem normalize_strips_all_separators :
    (∀ s : String, getFormatAndSubtype s = lookupNormalized (normalizeExt s))
      ∧ (∀ s : String, normalizeExt ("." ++ s) = normalizeExt s) := by
  constructor
  · intro s
    rfl
  · intro s
    cases s with
    | mk data =>
        show normalizeExt (String.mk ('.' :: data)) = _
        simp [normalizeExt, List.dropWhile]

/-- Claim C1: on an open recorder with channel count C, a flat buffer
is accepted exactly when C = 1 and otherwise raises the mono channel
mismatch; a 2-D buffer is accepted exactly when its second dimension is
C and otherwise raises a mismatch carrying C and that dimension; any
other rank raises the invalid-shape error carrying the rank. -/
theorem write_channel_validation (r : AudioRecorder) (h : r.isOpen = true) :
    (∀ n : Nat,
        ((r.write [n]).err = none ↔ r.channels = 1)
      ∧ (r.channels ≠ 1 →
          (r.write [n]).err = some (.channelMismatch r.channels .mono)))
  ∧ (∀ n c : Nat,
        ((r.write [n, c]).err = none ↔ c = r.channels)
      ∧ (c ≠ r.channels →
          (r.write [n, c]).err = some (.channelMismatch r.channels (.dims c))))
  ∧ (∀ shape : List Nat, shape.length ≠ 1 → shape.length ≠ 2 →
        (r.write shape).err = some (.invalidShape shape.length)) := by
  obtain ⟨sr, ch, writer⟩ := r
  cases writer with
  | none => simp [AudioRecorder.isOpen] at h
  | some w =>
      simp only [AudioRecorder.isOpen, Bool.not_eq_true'] at h
      refine ⟨fun n => ⟨?_, ?_⟩, fun n c => ⟨?_, ?_⟩, fun shape h1 h2 => ?_⟩
      · by_cases hc : ch = 1 <;> simp [AudioRecorder.write, h, hc]
      · intro hc
        simp only at hc
        simp [AudioRecorder.write, h, hc]
      · by_cases hc : c = ch <;> simp [AudioRecorder.write, h, hc]
      · intro hc
        simp only at hc
        simp [AudioRecorder.write, h, hc]
      · rcases shape with _ | ⟨a, _ | ⟨b, _ | ⟨d, rest⟩⟩⟩
        · simp [AudioRecorder.write, h]
        · simp at h1
        · simp at h2
        · simp [AudioRecorder.write, h]

/-- Witness for write_channel_validation on a concrete open stereo
recorder: the mismatching 100 by 3 buffer from the spec scenario. -/
theorem write_channel_validation_witness :
    (sampleStereo.write [100, 3]).err
      = some (.channelMismatch 2 (.dims 3)) :=
  ((write_channel_validation sampleStereo rfl).2.1 100 3).2 (by decide)

/-- Claim C3: on a recorder that has been closed, every write raises
ClosedResource with the recorder unchanged and without reaching the
encoder, so the number of frames in the backing file is unchanged. -/
theorem write_after_close (r : AudioRecorder) (shape : List Nat) :
    (r.close).write shape = ⟨some .closedResource, r.close, false⟩
      ∧ ((r.close).write shape).recorder.fileFrames = (r.close).fileFrames := by
  obtain ⟨sr, ch, writer⟩ := r
  have hclosed : ∀ s : List Nat,
      (AudioRecorder.close ⟨sr, ch, writer⟩).write s
        = ⟨some .closedResource, AudioRecorder.close ⟨sr, ch, writer⟩, false⟩ := by
    intro s
    cases writer with
    | none => rfl
    | some w =>
        by_cases hw : w.closed <;>
          simp [AudioRecorder.close, AudioRecorder.closeStep, AudioRecorder.write, hw]
  exact ⟨hclosed shape, by rw [hclosed shape]⟩

/-- Claim C5: a validation failure on an open recorder has no side
effects — the state is returned unchanged and still open, the encoder
is never reached, and a subsequent correctly shaped write succeeds. -/
theorem write_failure_recoverable (r : AudioRecorder) (shape : List Nat)
    (h : r.isOpen = true) (hf : (r.write shape).err ≠ none) :
    (r.write shape).recorder = r
  ∧ (r.write shape).encoderCalled = false
  ∧ (r.write shape).recorder.isOpen = true
  ∧ ∀ m : Nat, ((r.write shape).recorder.write [m, r.channels]).err = none := by
  obtain ⟨sr, ch, writer⟩ := r
  cases writer with
  | none => simp [AudioRecorder.isOpen] at h
  | some w =>
      simp only [AudioRecorder.isOpen, Bool.not_eq_true'] at h
      have hgood : ∀ m : Nat,
          ((AudioRecorder.mk sr ch (some w)).write [m, ch]).err = none := by
        intro m
        simp [AudioRecorder.write, h]
      have hrec : ((AudioRecorder.mk sr ch (some w)).write shape).recorder
            = AudioRecorder.mk sr ch (some w)
          ∧ ((AudioRecorder.mk sr ch (some w)).write shape).encoderCalled = false := by
        rcases shape with _ | ⟨a, _ | ⟨b, _ | ⟨d, rest⟩⟩⟩
        · simp [AudioRecorder.write, h]
        · by_cases hc : ch = 1
          · exact absurd (by simp [AudioRecorder.write, h, hc]) hf
          · simp [AudioRecorder.write, h, hc]
        · by_cases hc : b = ch
          · exact absurd (by simp [AudioRecorder.write, h, hc]) hf
          · simp [AudioRecorder.write, h, hc]
        · simp [AudioRecorder.write, h]
      refine ⟨hrec.1, hrec.2, ?_, ?_⟩
      · rw [hrec.1]
        simp [AudioRecorder.isOpen, h]
      · intro m
        rw [hrec.1]
        exact hgood m

/-- Witness for write_failure_recoverable: the spec scenario — stereo
recorder, 100 by 3 buffer rejected, then a correctly shaped write
succeeds. -/
theorem write_failure_recoverable_witness :
    (sampleStereo.write [100, 3]).recorder = sampleStereo
  ∧ ((sampleStereo.write [100, 3]).recorder.write [50, sampleStereo.channels]).err = none :=
  ⟨(write_failure_recoverable sampleStereo [100, 3] rfl (by decide)).1,
   (write_failure_recoverable sampleStereo [100, 3] rfl (by decide)).2.2.2 50⟩

/-- Closing an already closed recorder changes nothing and skips the
underlying handle close. -/
theorem closeStep_after_close (r : AudioRecorder) :
    (r.close).closeStep = (r.close, false) := by
  obtain ⟨sr, ch, writer⟩ := r
  cases writer with
  | none => rfl
  | some w =>
      by_cases hw : w.closed <;>
        simp [AudioRecorder.close, AudioRecorder.closeStep, hw]

/-- Claim C4: for every N of at least one, N close calls end in the same
state as a single one; the second and later calls are no-ops that skip
the handle close (hence cannot raise), while the first call on an open
recorder does perform the real handle close. -/
theorem close_idempotent (r : AudioRecorder) (n : Nat) (h : 1 ≤ n) :
    Nat.iterate AudioRecorder.close n r = r.close
  ∧ (r.close).closeStep = (r.close, false)
  ∧ (r.isOpen = true → r.closeStep.2 = true) := by
  have hfix : AudioRecorder.close (r.close) = r.close := by
    show (r.close).closeStep.1 = r.close
    rw [closeStep_after_close r]
  refine ⟨?_, closeStep_after_close r, ?_⟩
  · obtain ⟨m, rfl⟩ := Nat.exists_eq_add_of_le h
    rw [Nat.add_comm, Function.iterate_succ_apply]
    exact Function.iterate_fixed hfix m
  · intro hopen
    obtain ⟨sr, ch, writer⟩ := r
    cases writer with
    | none => simp [AudioRecorder.isOpen] at hopen
    | some w =>
        simp only [AudioRecorder.isOpen, Bool.not_eq_true'] at hopen
        simp [AudioRecorder.closeStep, hopen]

/-- Witness for close_idempotent: closing the concrete stereo recorder
three times equals closing it once, and the first close does the work. -/
theorem close_idempotent_witness :
    Nat.iterate AudioRecorder.close 3 sampleStereo = sampleStereo.close
      ∧ sampleStereo.closeStep.2 = true :=
  ⟨(close_idempotent sampleStereo 3 (by decide)).1,
   (close_idempotent sampleStereo 3 (by decide)).2.2 rfl⟩

/-- Claim C8: scoped use — entering the scope hands back the recorder
itself, leaving the scope invokes close exactly once whether the body
finished normally or raised, and the body result (value or pending
exception) passes through the exit unchanged. -/
theorem scoped_use_closes_once (α : Type) (s : TracedRecorder)
    (body : AudioRecorder → Except String α × AudioRecorder) :
    Recorder.enter s.state = s.state
  ∧ (pythonWith s body).2.closeCalls = s.closeCalls + 1
  ∧ (pythonWith s body).1 = (body s.state).1 :=
  ⟨rfl, rfl, rfl⟩

/-- Claim C9: the destructor invokes close once, and afterwards the
underlying handle is released (closed or never opened). -/
theorem finalizer_invokes_close (s : TracedRecorder) :
    (Recorder.finalize s).closeCalls = s.closeCalls + 1
  ∧ (Recorder.finalize s).state.writerReleased = true := by
  refine ⟨rfl, ?_⟩
  obtain ⟨⟨sr, ch, writer⟩, k⟩ := s
  cases writer with
  | none => rfl
  | some w =>
      by_cases hw : w.closed <;>
        simp [Recorder.finalize, TracedRecorder.close, AudioRecorder.close,
          AudioRecorder.closeStep, AudioRecorder.writerReleased, hw]

/-- Claim C10: on a recorder object whose construction raised before the
handle attribute was assigned, close is a raise-free no-op, write fails
with the same ClosedResource error as a closed writer, and the
destructor runs close without failure. -/
theorem failed_init_safe (sr ch : Nat) (shape : List Nat) :
    (AudioRecorder.afterFailedInit sr ch).closeStep
        = (AudioRecorder.afterFailedInit sr ch, false)
  ∧ (AudioRecorder.afterFailedInit sr ch).write shape
        = ⟨some .closedResource, AudioRecorder.afterFailedInit sr ch, false⟩
  ∧ (sampleStereo.close.write shape).err
        = ((AudioRecorder.afterFailedInit sr ch).write shape).err
  ∧ (Recorder.finalize ⟨AudioRecorder.afterFailedInit sr ch, 0⟩).state
        = AudioRecorder.afterFailedInit sr ch :=
  ⟨rfl, rfl, rfl, rfl⟩
